import Mathlib

/-!
Verification development for the ims outbound-message dispatching service.

The Go sources are shallowly embedded: timestamps are `Nat` nanoseconds
(Go `time.Time` / `time.Duration`), the relational store is a `Store`
record holding the `messages` and `dead_letter_messages` tables as lists,
SQL `UPDATE ... WHERE id = $n` statements become maps over the message
list guarded by the id, and fallible operations return `Except`.
External effects (the webhook HTTP call, the audit store) are passed in
as explicit outcome parameters.
-/

/-- One nanosecond-scaled second, matching Go `time.Second`. -/
def second : Nat := 1000000000

/-- One nanosecond-scaled minute, matching Go `time.Minute`. -/
def minute : Nat := 60 * second

/-- Model of `domain.MessageStatus` (`internal/domain/message.go` plus the
`dead_letter` value added by migration 003). -/
inductive MessageStatus where
  | pending
  | sending
  | sent
  | failed
  | deadLetter
deriving DecidableEq, Repr

/-- Model of `domain.Message`: one row of the `messages` table (retry-tracking
variant, with `last_retry_at`, `next_retry_at`, `failure_reason`). -/
structure Message where
  id : Nat
  phoneNumber : String
  content : String
  status : MessageStatus
  messageID : Option String
  retryCount : Nat
  lastRetryAt : Option Nat
  nextRetryAt : Option Nat
  failureReason : Option String
  createdAt : Nat
  sentAt : Option Nat
  updatedAt : Nat
deriving DecidableEq, Repr

/-- Model of `domain.DeadLetterMessage`: one row of `dead_letter_messages`. -/
structure DeadLetterMessage where
  id : Nat
  originalMessageID : Nat
  phoneNumber : String
  content : String
  retryCount : Nat
  failureReason : String
  lastAttemptAt : Nat
  movedToDlqAt : Nat
  webhookResponse : Option String
  createdAt : Nat
deriving DecidableEq, Repr

/-- The database state: `messages` and `dead_letter_messages` tables. -/
structure Store where
  messages : List Message
  deadLetters : List DeadLetterMessage
deriving DecidableEq, Repr

/-- Errors surfaced by the repository layer (`domain/errors.go`). -/
inductive RepoError where
  | messageNotFound
deriving DecidableEq, Repr

/-- Insertion step for the key-ascending sort used to model SQL
`ORDER BY key ASC`. -/
def insertAsc (key : Message → Nat) (m : Message) : List Message → List Message
  | [] => [m]
  | x :: xs => if key m ≤ key x then m :: x :: xs else x :: insertAsc key m xs

/-- Sort a list of messages by `key` ascending (models `ORDER BY key ASC`). -/
def sortAsc (key : Message → Nat) (l : List Message) : List Message :=
  l.foldr (insertAsc key) []

/-- Sort a list of messages by `key` descending (models `ORDER BY key DESC`). -/
def sortDesc (key : Message → Nat) (l : List Message) : List Message :=
  (sortAsc key l).reverse

/-- Insertion step for the descending sort on dead-letter rows. -/
def insertAscD (key : DeadLetterMessage → Nat) (m : DeadLetterMessage) :
    List DeadLetterMessage → List DeadLetterMessage
  | [] => [m]
  | x :: xs => if key m ≤ key x then m :: x :: xs else x :: insertAscD key m xs

/-- Sort dead-letter rows by `key` ascending. -/
def sortAscD (key : DeadLetterMessage → Nat) (l : List DeadLetterMessage) :
    List DeadLetterMessage :=
  l.foldr (insertAscD key) []

/-- Sort dead-letter rows by `key` descending. -/
def sortDescD (key : DeadLetterMessage → Nat) (l : List DeadLetterMessage) :
    List DeadLetterMessage :=
  (sortAscD key l).reverse

/-- Row predicate of `GetUnsentMessages`: `WHERE status = 'pending'`. -/
def pendingP (m : Message) : Bool := m.status == .pending

/-- Row predicate of `GetRetryableMessages`
(`internal/repository/postgres/message.go`):
`WHERE status = 'failed' AND next_retry_at IS NOT NULL AND next_retry_at <= CURRENT_TIMESTAMP`. -/
def retryableP (now : Nat) (m : Message) : Bool :=
  m.status == .failed && m.nextRetryAt.isSome && m.nextRetryAt.getD 0 ≤ now

/-- Model of `messageRepository.GetUnsentMessages`: pending rows ordered by
`created_at ASC`, `LIMIT limit`. -/
def GetUnsentMessages (st : Store) (limit : Nat) : List Message :=
  (sortAsc (fun m => m.createdAt) (st.messages.filter pendingP)).take limit

/-- Model of `messageRepository.GetRetryableMessages`: due failed rows ordered by
`next_retry_at ASC`, `LIMIT limit`. -/
def GetRetryableMessages (st : Store) (limit : Nat) (now : Nat) : List Message :=
  (sortAsc (fun m => m.nextRetryAt.getD 0) (st.messages.filter (retryableP now))).take limit

/-- Model of `messageRepository.GetSentMessages`: sent rows ordered by
`sent_at DESC`, `LIMIT limit OFFSET offset`. -/
def repoGetSentMessages (st : Store) (offset limit : Nat) : List Message :=
  ((sortDesc (fun m => m.sentAt.getD 0) (st.messages.filter (fun m => m.status == .sent))).drop offset).take limit

/-- Model of `messageRepository.GetDeadLetterMessages`: dead-letter rows ordered by
`moved_to_dlq_at DESC`, `LIMIT limit OFFSET offset`. -/
def repoGetDeadLetterMessages (st : Store) (offset limit : Nat) : List DeadLetterMessage :=
  ((sortDescD (fun m => m.movedToDlqAt) st.deadLetters).drop offset).take limit

/-- The `SET` clause of `UpdateMessageStatus`: when the new status is
`sent` and a webhook message id is supplied, also set `message_id` and
`sent_at`; otherwise only `status` and `updated_at`. -/
def applyStatus (status : MessageStatus) (messageID : Option String) (now : Nat)
    (m : Message) : Message :=
  if status = .sent ∧ messageID.isSome then
    { m with status := status, messageID := messageID, sentAt := some now, updatedAt := now }
  else
    { m with status := status, updatedAt := now }

/-- Model of `messageRepository.UpdateMessageStatus`: `UPDATE messages SET ...
WHERE id = $n` — conditioned on the id only, not on the current status.
Returns `ErrMessageNotFound` when zero rows are affected. -/
def UpdateMessageStatus (st : Store) (id : Nat) (status : MessageStatus)
    (messageID : Option String) (now : Nat) : Except RepoError Store :=
  if st.messages.any (fun m => m.id == id) then
    .ok { st with
          messages := st.messages.map (fun m =>
            if m.id == id then applyStatus status messageID now m else m) }
  else
    .error .messageNotFound

/-- The `SET` clause of `UpdateMessageRetry`: `retry_count`,
`last_retry_at = CURRENT_TIMESTAMP`, `next_retry_at`, `failure_reason`,
`updated_at = CURRENT_TIMESTAMP`.  The `status` column is not touched. -/
def applyRetry (retryCount : Nat) (nextRetryAt : Option Nat)
    (failureReason : Option String) (now : Nat) (m : Message) : Message :=
  { m with retryCount := retryCount, lastRetryAt := some now,
           nextRetryAt := nextRetryAt, failureReason := failureReason, updatedAt := now }

/-- Model of `messageRepository.UpdateMessageRetry`: id-conditioned update of the
retry metadata columns; `ErrMessageNotFound` on zero rows affected. -/
def UpdateMessageRetry (st : Store) (id : Nat) (retryCount : Nat)
    (nextRetryAt : Option Nat) (failureReason : Option String) (now : Nat) :
    Except RepoError Store :=
  if st.messages.any (fun m => m.id == id) then
    .ok { st with
          messages := st.messages.map (fun m =>
            if m.id == id then applyRetry retryCount nextRetryAt failureReason now m else m) }
  else
    .error .messageNotFound

/-- Model of `messageRepository.MoveToDeadLetterQueue`: inside one transaction,
insert a dead-letter row snapshotting the message (the fresh row id from
`uuid.New()` is modelled by the current table length) and flip the
original message's status to `dead_letter` (id-conditioned `UPDATE`,
no rows-affected check). -/
def MoveToDeadLetterQueue (st : Store) (msg : Message) (failureReason : String)
    (webhookResponse : Option String) (now : Nat) : Store :=
  let lastAttemptAt := msg.lastRetryAt.getD now
  let row : DeadLetterMessage :=
    { id := st.deadLetters.length
      originalMessageID := msg.id
      phoneNumber := msg.phoneNumber
      content := msg.content
      retryCount := msg.retryCount
      failureReason := failureReason
      lastAttemptAt := lastAttemptAt
      movedToDlqAt := now
      webhookResponse := webhookResponse
      createdAt := now }
  { messages := st.messages.map (fun m =>
      if m.id == msg.id then { m with status := .deadLetter, updatedAt := now } else m)
    deadLetters := st.deadLetters ++ [row] }

/-- Model of `messageRepository.CreateMessage`: insert a new row. -/
def repoCreateMessage (st : Store) (msg : Message) : Store :=
  { st with messages := st.messages ++ [msg] }

/-- Look a message up by id (models `SELECT ... WHERE id = $1`). -/
def findMsg (st : Store) (id : Nat) : Option Message :=
  st.messages.find? (fun m => m.id == id)

/-- Model of `domain.WebhookResponse`: the parsed webhook reply body. -/
structure WebhookResponse where
  message : String
  messageID : String
deriving DecidableEq, Repr

/-- Outcome of one outbound HTTP POST, as seen by
`WebhookClient.doRequest`: either a transport-level failure of
`client.Do`, or a response with a status code and a body that either
parses as `WebhookResponse` (`some`) or fails JSON decoding (`none`). -/
inductive HTTPOutcome where
  | transportError (e : String)
  | response (status : Nat) (body : Option WebhookResponse)
deriving DecidableEq, Repr

/-- Model of `WebhookClient.doRequest` (`internal/service/webhook.go`): a
transport error is surfaced; any status other than 200 or 202 is an
error; on 200/202 the decoded body is returned, and when decoding fails
a mock response with id `webhook-<nano>` is synthesized instead of
failing (`nano` models `time.Now().UnixNano()`). -/
def doRequest (nano : Nat) (o : HTTPOutcome) : Except String WebhookResponse :=
  match o with
  | .transportError e => .error (("failed to send request: ") ++ e)
  | .response status body =>
    if status ≠ 200 ∧ status ≠ 202 then
      .error (("unexpected status code: ") ++ toString status)
    else
      match body with
      | some r => .ok r
      | none => .ok { message := "Accepted", messageID := ("webhook-") ++ toString nano }

/-- The retry loop of `WebhookClient.Send`: walk the per-attempt
outcomes in order, returning on the first successful `doRequest` and
otherwise remembering the last error (`lastErr`). -/
def sendLoop : List (HTTPOutcome × Nat) → Option String →
    Option WebhookResponse × Option String
  | [], lastErr => (none, lastErr)
  | (o, nano) :: rest, _ =>
    match doRequest nano o with
    | .ok r => (some r, none)
    | .error e => sendLoop rest (some e)

/-- Model of `WebhookClient.Send`: up to `maxRetries + 1` attempts (the
`attempts` list supplies the outcome and nano-timestamp of each); after
exhausting them the last error is wrapped as
`failed after N attempts: <err>`. -/
def webhookSend (maxRetries : Nat) (attempts : List (HTTPOutcome × Nat)) :
    Except String WebhookResponse :=
  match sendLoop (attempts.take (maxRetries + 1)) none with
  | (some r, _) => .ok r
  | (none, lastErr) =>
    .error (("failed after ") ++ toString (maxRetries + 1) ++ (" attempts: ") ++ lastErr.getD (""))

/-- Go `unicode.IsSpace`, restricted to the white-space code points. -/
def goIsSpace (c : Char) : Bool :=
  c == ' ' || c == '\t' || c == '\n' || c == (Char.ofNat 11) || c == (Char.ofNat 12) ||
  c == '\r' || c == (Char.ofNat 133) || c == (Char.ofNat 160) ||
  c == (Char.ofNat 0x1680) || (0x2000 ≤ c.toNat && c.toNat ≤ 0x200a) ||
  c == (Char.ofNat 0x2028) || c == (Char.ofNat 0x2029) || c == (Char.ofNat 0x202f) ||
  c == (Char.ofNat 0x205f) || c == (Char.ofNat 0x3000)

/-- Go `strings.TrimSpace` on a character list. -/
def trimSpace (s : List Char) : List Char :=
  ((s.dropWhile goIsSpace).reverse.dropWhile goIsSpace).reverse

/-- Decimal digit test (`\d` in the Go regexp). -/
def isDigitCh (c : Char) : Bool := '0' ≤ c && c ≤ '9'

/-- Matching against the anchored regexp
`^\+[1-9]\d{1,14}$` of `internal/service/message.go`. -/
def phoneRegexMatch : List Char → Bool
  | '+' :: d :: rest =>
    ('1' ≤ d && d ≤ '9') && rest.all isDigitCh && 1 ≤ rest.length && rest.length ≤ 14
  | _ => false

/-- Model of `validatePhoneNumber`: trim surrounding whitespace, then match the
phone regexp. -/
def validatePhoneNumber (phoneNumber : String) : Bool :=
  phoneRegexMatch (trimSpace phoneNumber.toList)

/-- Go `strings.TrimSpace` on a `String`. -/
def trimSpaceStr (s : String) : String := String.mk (trimSpace s.toList)

/-- Errors returned by `MessageService.CreateMessage`
(`domain.ErrInvalidPhoneNumber`, `domain.ErrMessageTooLong`). -/
inductive CreateError where
  | invalidPhoneNumber
  | messageTooLong
deriving DecidableEq, Repr

/-- The message literal built by `MessageService.CreateMessage`:
`status = pending`, `retry_count = 0`, trimmed phone number, timestamps
set to `now`.  `newId` models `uuid.New()`. -/
def newPendingMessage (phoneNumber content : String) (newId now : Nat) : Message :=
  { id := newId
    phoneNumber := trimSpaceStr phoneNumber
    content := content
    status := .pending
    messageID := none
    retryCount := 0
    lastRetryAt := none
    nextRetryAt := none
    failureReason := none
    createdAt := now
    sentAt := none
    updatedAt := now }

/-- Model of `MessageService.CreateMessage`: validate the phone number, then the
content byte length against `maxLength` (Go `len(content)` counts
bytes), then persist the new pending message. -/
def CreateMessage (maxLength : Nat) (phoneNumber content : String) (st : Store)
    (newId now : Nat) : Except CreateError (Store × Message) :=
  if ¬ validatePhoneNumber phoneNumber then
    .error .invalidPhoneNumber
  else if content.utf8ByteSize > maxLength then
    .error .messageTooLong
  else
    let msg := newPendingMessage phoneNumber content newId now
    .ok (repoCreateMessage st msg, msg)

/-- Result of one `MessageService.sendMessage` run: the store afterward,
whether the webhook was invoked, and the returned error (if any). -/
structure SendOutcome where
  store : Store
  webhookCalled : Bool
  err : Option RepoError
deriving DecidableEq, Repr

/-- Model of `MessageService.handleSendFailure` (retry-policy variant): with
`maxRetries = 5` and `newRetryCount = retry_count + 1`, move the message
to the dead-letter queue when `newRetryCount >= maxRetries`; otherwise
schedule the next retry at `now + newRetryCount² minutes` via
`UpdateMessageRetry`. -/
def handleSendFailure (st : Store) (msg : Message) (sendErr : String)
    (webhookResponse : Option String) (now : Nat) : SendOutcome :=
  let maxRetries := 5
  let newRetryCount := msg.retryCount + 1
  let failureReason := ("webhook failed: ") ++ sendErr
  if newRetryCount ≥ maxRetries then
    { store := MoveToDeadLetterQueue st msg
        (("exceeded max retries (") ++ toString maxRetries ++ ("): ") ++ failureReason)
        webhookResponse now
      webhookCalled := true
      err := none }
  else
    let backoffMinutes := newRetryCount * newRetryCount
    let nextRetryAt := now + backoffMinutes * minute
    match UpdateMessageRetry st msg.id newRetryCount (some nextRetryAt)
        (some failureReason) now with
    | .ok st' => { store := st', webhookCalled := true, err := none }
    | .error e => { store := st, webhookCalled := true, err := some e }

/-- Model of `MessageService.sendMessage` (retry-policy variant): oversize content
goes straight to the dead-letter queue; otherwise the status is set to
`sending` (id-conditioned update), the webhook is invoked, and the
outcome is recorded as `sent` or handed to `handleSendFailure`.  The
`webhook` parameter carries the outcome of `WebhookClient.Send`. -/
def sendMessage (st : Store) (msg : Message) (maxLength : Nat)
    (webhook : Except String WebhookResponse) (now : Nat) : SendOutcome :=
  if msg.content.utf8ByteSize > maxLength then
    { store := MoveToDeadLetterQueue st msg ("Message content exceeds maximum length") none now
      webhookCalled := false
      err := none }
  else
    match UpdateMessageStatus st msg.id .sending none now with
    | .error e => { store := st, webhookCalled := false, err := some e }
    | .ok st1 =>
      match webhook with
      | .error e => handleSendFailure st1 msg e none now
      | .ok resp =>
        match UpdateMessageStatus st1 msg.id .sent (some resp.messageID) now with
        | .error e => { store := st1, webhookCalled := true, err := some e }
        | .ok st2 => { store := st2, webhookCalled := true, err := none }

/-- Model of `MessageService.ProcessMessages` (retry-policy variant): fetch one
batch of pending rows and one of due failed rows, then run
`sendMessage` on each in order, continuing past per-message errors.
`webhookFor` supplies the webhook outcome per message id. -/
def ProcessMessages (st : Store) (batchSize maxLength : Nat)
    (webhookFor : Nat → Except String WebhookResponse) (now : Nat) : Store :=
  let allMessages := GetUnsentMessages st batchSize ++ GetRetryableMessages st batchSize now
  allMessages.foldl (fun acc m => (sendMessage acc m maxLength (webhookFor m.id) now).store) st

/-- The pagination normalization of `MessageService.GetSentMessages`:
`page < 1` falls back to 1, `pageSize` outside `[1,100]` falls back to
20, and the read offset is `(page-1)*pageSize`.  Returns
`(offset, limit)`. -/
def getSentMessagesParams (page pageSize : Int) : Int × Int :=
  let p := if page < 1 then 1 else page
  let ps := if pageSize < 1 ∨ pageSize > 100 then 20 else pageSize
  ((p - 1) * ps, ps)

/-- The pagination normalization of
`MessageService.GetDeadLetterMessages` (textually identical to the sent
variant in the source). -/
def getDeadLetterMessagesParams (page pageSize : Int) : Int × Int :=
  let p := if page < 1 then 1 else page
  let ps := if pageSize < 1 ∨ pageSize > 100 then 20 else pageSize
  ((p - 1) * ps, ps)

/-- Model of `MessageService.GetSentMessages`: normalize the pagination inputs
and read from the repository. -/
def serviceGetSentMessages (st : Store) (page pageSize : Int) : List Message :=
  let args := getSentMessagesParams page pageSize
  repoGetSentMessages st args.1.toNat args.2.toNat

/-- Model of `MessageService.GetDeadLetterMessages`: normalize the pagination
inputs and read from the repository. -/
def serviceGetDeadLetterMessages (st : Store) (page pageSize : Int) : List DeadLetterMessage :=
  let args := getDeadLetterMessagesParams page pageSize
  repoGetDeadLetterMessages st args.1.toNat args.2.toNat

/-- Scheduler errors (`domain.ErrSchedulerRunning`,
`domain.ErrSchedulerNotRunning`). -/
inductive SchedError where
  | alreadyRunning
  | notRunning
deriving DecidableEq, Repr

/-- The mutex-guarded scheduler state: the `running` flag and
`startedAt` (`internal/scheduler/scheduler.go`). -/
structure SchedState where
  running : Bool
  startedAt : Option Nat
deriving DecidableEq, Repr

/-- Model of `Scheduler.Start`: return `ErrSchedulerRunning` (state untouched)
when already running; otherwise set `running` and `startedAt = now`. -/
def schedulerStart (s : SchedState) (now : Nat) : Option SchedError × SchedState :=
  if s.running then
    (some .alreadyRunning, s)
  else
    (none, { running := true, startedAt := some now })

/-- Model of `Scheduler.Stop`: return `ErrSchedulerNotRunning` (state untouched)
when not running; otherwise clear `running` and `startedAt`. -/
def schedulerStop (s : SchedState) : Option SchedError × SchedState :=
  if s.running = false then
    (some .notRunning, s)
  else
    (none, { running := false, startedAt := none })

/-- Model of `Scheduler.GetStatus`: the running flag and `startedAt`. -/
def getStatus (s : SchedState) : Bool × Option Nat :=
  (s.running, s.startedAt)

/-- The batch-context timeout computed in `Scheduler.processBatch`:
30 seconds, raised to `interval / 2` when the interval exceeds one
minute. -/
def batchTimeout (interval : Nat) : Nat :=
  if interval > minute then interval / 2 else 30 * second

/-- A reduced `domain.AuditLog` entry: event type and name. -/
structure AuditLog where
  eventType : String
  eventName : String
deriving DecidableEq, Repr

/-- Where an audit entry ended up: the audit store, or the structured
console-log fallback. -/
inductive AuditDisposition where
  | stored
  | consoleLogged
deriving DecidableEq, Repr

/-- Model of `auditService.logWithFallback`: write to the audit store; when the
store write fails (`storeOk = false`), fall back to console logging and
return a wrapped `audit logging failed` error. -/
def logWithFallback (storeOk : Bool) (entry : AuditLog) :
    AuditDisposition × Option String :=
  if storeOk then
    (.stored, none)
  else
    (.consoleLogged, some (("audit logging failed: ") ++ entry.eventType))

/-- Result of one `Scheduler.processBatch` run: the store afterward and
the dispositions of the audit emissions made along the way. -/
structure BatchRun where
  store : Store
  audits : List (AuditDisposition × Option String)
deriving DecidableEq, Repr

/-- Model of `Scheduler.processBatch` (polling variant): emit `batch_started`,
run `ProcessMessages`, then emit `batch_completed` (the model's
`ProcessMessages` cannot fail, so the `batch_failed` arm of the source
is not reachable here).  Audit errors are only logged — the goroutines
in the source discard them — so they never affect the store. -/
def processBatch (auditOk : Bool) (st : Store) (batchSize maxLength : Nat)
    (webhookFor : Nat → Except String WebhookResponse) (now : Nat) : BatchRun :=
  let started := logWithFallback auditOk
    { eventType := "batch_started", eventName := "Batch Processing Started" }
  let st' := ProcessMessages st batchSize maxLength webhookFor now
  let completed := logWithFallback auditOk
    { eventType := "batch_completed", eventName := "Batch Processing Completed" }
  { store := st', audits := [started, completed] }

/-- Model of `Scheduler.Start` together with its `scheduler_started` audit
emission (fired only on a successful start, in a goroutine whose error
is merely logged). -/
def schedulerStartRun (auditOk : Bool) (s : SchedState) (now : Nat) :
    (Option SchedError × SchedState) × Option (AuditDisposition × Option String) :=
  match schedulerStart s now with
  | (some e, s') => ((some e, s'), none)
  | (none, s') =>
    ((none, s'), some (logWithFallback auditOk
      { eventType := "scheduler_started", eventName := "Message Scheduler Started" }))

/-- Model of `Scheduler.Stop` together with its `scheduler_stopped` audit
emission. -/
def schedulerStopRun (auditOk : Bool) (s : SchedState) :
    (Option SchedError × SchedState) × Option (AuditDisposition × Option String) :=
  match schedulerStop s with
  | (some e, s') => ((some e, s'), none)
  | (none, s') =>
    ((none, s'), some (logWithFallback auditOk
      { eventType := "scheduler_stopped", eventName := "Message Scheduler Stopped" }))

/-! ### Helper lemmas -/

theorem mem_insertAsc {key : Message → Nat} {m a : Message} {l : List Message} :
    a ∈ insertAsc key m l ↔ a = m ∨ a ∈ l := by
  induction l with
  | nil => simp [insertAsc]
  | cons x xs ih =>
    rw [insertAsc]
    split
    · simp
    · simp only [List.mem_cons, ih]
      tauto

theorem mem_sortAsc {key : Message → Nat} {a : Message} {l : List Message} :
    a ∈ sortAsc key l ↔ a ∈ l := by
  induction l with
  | nil => simp [sortAsc]
  | cons x xs ih =>
    simp only [sortAsc, List.foldr_cons] at *
    rw [mem_insertAsc, ih, List.mem_cons]

theorem getUnsentMessages_status {st : Store} {limit : Nat} {m : Message}
    (hm : m ∈ GetUnsentMessages st limit) : m.status = .pending := by
  unfold GetUnsentMessages at hm
  have h1 : m ∈ sortAsc (fun m => m.createdAt) (st.messages.filter pendingP) :=
    List.take_subset _ _ hm
  rw [mem_sortAsc] at h1
  have h2 := (List.mem_filter.mp h1).2
  simpa [pendingP] using h2

theorem getRetryableMessages_status {st : Store} {limit now : Nat} {m : Message}
    (hm : m ∈ GetRetryableMessages st limit now) : m.status = .failed := by
  unfold GetRetryableMessages at hm
  have h1 : m ∈ sortAsc (fun m => m.nextRetryAt.getD 0) (st.messages.filter (retryableP now)) :=
    List.take_subset _ _ hm
  rw [mem_sortAsc] at h1
  have h2 := (List.mem_filter.mp h1).2
  simp only [retryableP, Bool.and_eq_true, beq_iff_eq] at h2
  exact h2.1.1

/-- Shape of a successful `UpdateMessageRetry` when the id is present. -/
theorem updateMessageRetry_ok_of_any (st : Store) (id rc : Nat) (nra : Option Nat)
    (fr : Option String) (now : Nat)
    (h : st.messages.any (fun m => m.id == id) = true) :
    UpdateMessageRetry st id rc nra fr now =
      .ok { st with messages := st.messages.map (fun m =>
        if m.id == id then applyRetry rc nra fr now m else m) } := by
  unfold UpdateMessageRetry
  rw [if_pos h]

/-- A sample `sending` message used by concrete witnesses. -/
def sampleSending : Message :=
  { id := 1, phoneNumber := "+12025550100", content := "hi", status := .sending
    messageID := none, retryCount := 0, lastRetryAt := none, nextRetryAt := none
    failureReason := none, createdAt := 0, sentAt := none, updatedAt := 0 }

/-! ### Claim theorems -/

/-- C10: for a message id present in the store, `UpdateMessageRetry`
changes only `retry_count`, `last_retry_at`, `next_retry_at`,
`failure_reason` and `updated_at`; every other column — in particular
`status` — is unchanged, so a message that was `sending` before the
attempt is still `sending` afterwards and is not matched by the
`GetRetryableMessages` filter, which selects only `status = failed`
rows. -/
theorem updateMessageRetry_frame (st : Store) (id retryCount now : Nat)
    (nextRetryAt : Option Nat) (failureReason : Option String)
    (h : st.messages.any (fun m => m.id == id) = true) :
    ∃ st', UpdateMessageRetry st id retryCount nextRetryAt failureReason now = .ok st' ∧
      st'.deadLetters = st.deadLetters ∧
      st'.messages = st.messages.map (fun m =>
        if m.id == id then applyRetry retryCount nextRetryAt failureReason now m else m) ∧
      (∀ m : Message,
        (applyRetry retryCount nextRetryAt failureReason now m).status = m.status ∧
        (applyRetry retryCount nextRetryAt failureReason now m).id = m.id ∧
        (applyRetry retryCount nextRetryAt failureReason now m).phoneNumber = m.phoneNumber ∧
        (applyRetry retryCount nextRetryAt failureReason now m).content = m.content ∧
        (applyRetry retryCount nextRetryAt failureReason now m).messageID = m.messageID ∧
        (applyRetry retryCount nextRetryAt failureReason now m).createdAt = m.createdAt ∧
        (applyRetry retryCount nextRetryAt failureReason now m).sentAt = m.sentAt ∧
        (applyRetry retryCount nextRetryAt failureReason now m).retryCount = retryCount ∧
        (applyRetry retryCount nextRetryAt failureReason now m).lastRetryAt = some now ∧
        (applyRetry retryCount nextRetryAt failureReason now m).nextRetryAt = nextRetryAt ∧
        (applyRetry retryCount nextRetryAt failureReason now m).failureReason = failureReason ∧
        (applyRetry retryCount nextRetryAt failureReason now m).updatedAt = now) ∧
      (∀ (m : Message) (t : Nat), m.status = .sending →
        retryableP t (applyRetry retryCount nextRetryAt failureReason now m) = false) ∧
      (∀ (lim t : Nat) (m : Message), m ∈ GetRetryableMessages st lim t →
        m.status = .failed) := by
  refine ⟨_, updateMessageRetry_ok_of_any st id retryCount nextRetryAt failureReason now h,
    rfl, rfl, ?_, ?_, ?_⟩
  · intro m
    simp [applyRetry]
  · intro m t hm
    simp [retryableP, applyRetry, hm]
  · intro lim t m hm
    exact getRetryableMessages_status hm

/-- C10 witness: the frame property applied to a concrete store holding
one `sending` message. -/
theorem updateMessageRetry_frame_witness :
    ∃ st', UpdateMessageRetry { messages := [sampleSending], deadLetters := [] } 1 1
        (some (100 + minute)) (some ("webhook failed: timeout")) 100 = .ok st' ∧
      st'.deadLetters = [] := by
  obtain ⟨st', h1, h2, _⟩ := updateMessageRetry_frame
    { messages := [sampleSending], deadLetters := [] } 1 1 100
    (some (100 + minute)) (some ("webhook failed: timeout")) (by decide)
  exact ⟨st', h1, h2⟩

/-- A sample message already in status `sent`, used for the dispatcher
idempotence claim. -/
def sampleSent : Message :=
  { id := 1, phoneNumber := "+12025550100", content := "hi", status := .sent
    messageID := some ("msg-old"), retryCount := 0, lastRetryAt := none
    nextRetryAt := none, failureReason := none, createdAt := 0
    sentAt := some 50, updatedAt := 50 }

/-- Whatever the repository does afterwards, once the webhook has been
invoked `handleSendFailure` reports the call as made. -/
theorem handleSendFailure_webhookCalled (st : Store) (msg : Message) (e : String)
    (wr : Option String) (now : Nat) :
    (handleSendFailure st msg e wr now).webhookCalled = true := by
  unfold handleSendFailure
  dsimp only
  split
  · rfl
  · split <;> rfl

/-- Shape of a successful `UpdateMessageStatus` when the id is present. -/
theorem updateMessageStatus_ok_of_any (st : Store) (id : Nat) (s : MessageStatus)
    (mid : Option String) (now : Nat)
    (h : st.messages.any (fun m => m.id == id) = true) :
    UpdateMessageStatus st id s mid now =
      .ok { st with messages := st.messages.map (fun m =>
        if m.id == id then applyStatus s mid now m else m) } := by
  unfold UpdateMessageStatus
  rw [if_pos h]

/-- C1 (evaluation at the failing input): a webhook failure with
`retry_count = 0` leaves the message in status `sending` — the code
updates only the retry metadata, never flipping the status to `failed`,
so the message is not matched by `GetRetryableMessages` even after its
`next_retry_at` has passed; a failure with `retry_count = 4`
(`max_retries - 1`) does move the message to `dead_letter` with a DLQ
row inserted. -/
theorem handleSendFailure_eval :
    (let out := handleSendFailure { messages := [sampleSending], deadLetters := [] }
        sampleSending ("timeout") none 100
     (findMsg out.store 1).map Message.status = some MessageStatus.sending ∧
     (findMsg out.store 1).map Message.retryCount = some 1 ∧
     (findMsg out.store 1).map Message.nextRetryAt = some (some (100 + minute)) ∧
     (findMsg out.store 1).map Message.failureReason =
       some (some ("webhook failed: timeout")) ∧
     GetRetryableMessages out.store 2 (100 + 2 * minute) = [] ∧
     out.store.deadLetters = []) ∧
    (let m4 : Message := { sampleSending with retryCount := 4 }
     let out4 := handleSendFailure { messages := [m4], deadLetters := [] } m4
       ("timeout") none 100
     (findMsg out4.store 1).map Message.status = some MessageStatus.deadLetter ∧
     out4.store.deadLetters.length = 1 ∧
     out4.store.deadLetters.map DeadLetterMessage.originalMessageID = [1]) := by
  decide

/-- C2 counterexample: running one `sendMessage` attempt on a message
whose status is already `sent` is not a no-op — the status update is
conditioned on the id only, so the webhook is called again and
`message_id` / `sent_at` are overwritten. -/
theorem sendMessage_not_noop_on_sent :
    (let out := sendMessage { messages := [sampleSent], deadLetters := [] } sampleSent 160
       (.ok { message := "ok", messageID := "msg-new" }) 100
     out.webhookCalled = true ∧
     (findMsg out.store 1).map Message.messageID = some (some ("msg-new")) ∧
     (findMsg out.store 1).map Message.sentAt = some (some 100) ∧
     out.store ≠ { messages := [sampleSent], deadLetters := [] }) := by
  decide

/-- C2 amended: the dispatcher is not idempotent on terminal messages —
status updates are conditioned only on the id, so `sendMessage` on any
stored message with in-bounds content invokes the webhook regardless of
its current status; messages in `sent` or `dead_letter` are protected
only by batch selection, whose queries return exclusively
`status = pending` (`GetUnsentMessages`) and `status = failed`
(`GetRetryableMessages`) rows. -/
theorem dispatcher_terminal_protection (st : Store) (limit now : Nat) (msg : Message)
    (maxLength : Nat) (wh : Except String WebhookResponse) (tnow : Nat) :
    (∀ m ∈ GetUnsentMessages st limit, m.status = .pending) ∧
    (∀ m ∈ GetRetryableMessages st limit now, m.status = .failed) ∧
    (msg.content.utf8ByteSize ≤ maxLength →
      st.messages.any (fun m => m.id == msg.id) = true →
      (sendMessage st msg maxLength wh tnow).webhookCalled = true) := by
  refine ⟨fun m hm => getUnsentMessages_status hm,
          fun m hm => getRetryableMessages_status hm, ?_⟩
  intro hlen hid
  unfold sendMessage
  rw [if_neg (by omega)]
  simp only [updateMessageStatus_ok_of_any st msg.id .sending none tnow hid]
  cases wh with
  | error e => exact handleSendFailure_webhookCalled _ _ _ _ _
  | ok resp =>
    split
    · exact handleSendFailure_webhookCalled _ _ _ _ _
    · split <;> rfl

/-- C2 amended witness: concrete instantiation on a stored `sent`
message with content within bounds. -/
theorem dispatcher_terminal_protection_witness :
    (sendMessage { messages := [sampleSent], deadLetters := [] } sampleSent 160
      (.ok { message := "ok", messageID := "msg-new" }) 100).webhookCalled = true := by
  exact (dispatcher_terminal_protection { messages := [sampleSent], deadLetters := [] } 2 0
    sampleSent 160 (.ok { message := "ok", messageID := "msg-new" }) 100).2.2
    (by decide) (by decide)

/-- C3: when a failed attempt number `n = retry_count + 1` satisfies
`1 ≤ n < max_retries`, `handleSendFailure` schedules
`next_retry_at = now + n² minutes` (so 1, 4, 9, 16 minutes for attempts
1..4), and the schedule strictly increases across consecutive failures
of the same message (later wall-clock time, larger attempt number). -/
theorem backoff_quadratic (st : Store) (msg : Message) (e : String) (now : Nat)
    (h1 : msg.retryCount + 1 < 5)
    (h2 : st.messages.any (fun m => m.id == msg.id) = true) :
    (handleSendFailure st msg e none now =
      { store := { st with messages := st.messages.map (fun m =>
          if m.id == msg.id then
            applyRetry (msg.retryCount + 1)
              (some (now + (msg.retryCount + 1) * (msg.retryCount + 1) * minute))
              (some (("webhook failed: ") ++ e)) now m
          else m) }
        webhookCalled := true
        err := none }) ∧
    (∀ m : Message,
      (applyRetry (msg.retryCount + 1)
        (some (now + (msg.retryCount + 1) * (msg.retryCount + 1) * minute))
        (some (("webhook failed: ") ++ e)) now m).nextRetryAt =
      some (now + (msg.retryCount + 1) * (msg.retryCount + 1) * minute)) ∧
    (now + 1 * 1 * minute = now + 1 * minute ∧
     now + 2 * 2 * minute = now + 4 * minute ∧
     now + 3 * 3 * minute = now + 9 * minute ∧
     now + 4 * 4 * minute = now + 16 * minute) ∧
    (∀ t1 t2 n1 n2 : Nat, t1 ≤ t2 → n1 < n2 →
      t1 + n1 * n1 * minute < t2 + n2 * n2 * minute) := by
  refine ⟨?_, ?_, ?_, ?_⟩
  · unfold handleSendFailure
    dsimp only
    rw [if_neg (by omega),
      updateMessageRetry_ok_of_any st msg.id (msg.retryCount + 1)
        (some (now + (msg.retryCount + 1) * (msg.retryCount + 1) * minute))
        (some (("webhook failed: ") ++ e)) now h2]
  · intro m
    simp [applyRetry]
  · refine ⟨by ring_nf, by ring_nf, by ring_nf, by ring_nf⟩
  · intro t1 t2 n1 n2 ht hn
    have hm : 0 < minute := by norm_num [minute, second]
    have hsq : n1 * n1 < n2 * n2 := by nlinarith
    have h3 : n1 * n1 * minute < n2 * n2 * minute := mul_lt_mul_of_pos_right hsq hm
    omega

/-- C3 witness: first failure of a fresh `sending` message at time 100
is scheduled for `100 + 1 minute`. -/
theorem backoff_quadratic_witness :
    handleSendFailure { messages := [sampleSending], deadLetters := [] } sampleSending
        ("timeout") none 100 =
      { store := { messages := [sampleSending].map (fun m =>
          if m.id == sampleSending.id then
            applyRetry (sampleSending.retryCount + 1)
              (some (100 + (sampleSending.retryCount + 1) * (sampleSending.retryCount + 1) * minute))
              (some (("webhook failed: ") ++ ("timeout"))) 100 m
          else m), deadLetters := [] }
        webhookCalled := true
        err := none } := by
  exact (backoff_quadratic { messages := [sampleSending], deadLetters := [] } sampleSending
    ("timeout") 100 (by decide) (by decide)).1

/-- C4: `CreateMessage` returns `InvalidPhone` exactly when the phone,
after trimming surrounding whitespace, fails `+[1-9][0-9]{1,14}`;
otherwise `ContentTooLong` exactly when the content byte length exceeds
`max_length` (equality passes); otherwise it persists a message with
`status = pending` and `retry_count = 0`.  Concretely, `+12` and
`+123456789012345` are accepted; `+1` and a 16-digit number are
rejected. -/
theorem createMessage_validation (maxLength : Nat) (phone content : String)
    (st : Store) (newId now : Nat) :
    (CreateMessage maxLength phone content st newId now = .error .invalidPhoneNumber ↔
      validatePhoneNumber phone = false) ∧
    (CreateMessage maxLength phone content st newId now = .error .messageTooLong ↔
      (validatePhoneNumber phone = true ∧ content.utf8ByteSize > maxLength)) ∧
    (validatePhoneNumber phone = true → content.utf8ByteSize ≤ maxLength →
      CreateMessage maxLength phone content st newId now =
          .ok (repoCreateMessage st (newPendingMessage phone content newId now),
            newPendingMessage phone content newId now) ∧
        (newPendingMessage phone content newId now).status = .pending ∧
        (newPendingMessage phone content newId now).retryCount = 0) ∧
    validatePhoneNumber ("+12") = true ∧
    validatePhoneNumber ("+123456789012345") = true ∧
    validatePhoneNumber ((" +12 ")) = true ∧
    validatePhoneNumber ("+1") = false ∧
    validatePhoneNumber ("+1234567890123456") = false := by
  refine ⟨?_, ?_, ?_, by decide, by decide, by decide, by decide, by decide⟩
  · by_cases hv : validatePhoneNumber phone <;>
      by_cases hl : content.utf8ByteSize > maxLength <;>
        simp [CreateMessage, hv, hl]
  · by_cases hv : validatePhoneNumber phone <;>
      by_cases hl : content.utf8ByteSize > maxLength <;>
        simp [CreateMessage, hv, hl]
  · intro hv hl
    refine ⟨?_, rfl, rfl⟩
    unfold CreateMessage
    rw [if_neg (by simp [hv]), if_neg (by omega)]

/-- C4 witness: creating a valid two-digit number with in-bounds content
succeeds with a pending, zero-retry message. -/
theorem createMessage_validation_witness :
    CreateMessage 160 ("+12") ("hi") { messages := [], deadLetters := [] } 7 5 =
      .ok (repoCreateMessage { messages := [], deadLetters := [] }
          (newPendingMessage ("+12") ("hi") 7 5),
        newPendingMessage ("+12") ("hi") 7 5) := by
  exact ((createMessage_validation 160 ("+12") ("hi")
    { messages := [], deadLetters := [] } 7 5).2.2.1 (by decide) (by decide)).1

/-- C5: `doRequest` succeeds exactly on HTTP 200 and 202; on success a
parsed `{message, messageId}` body is returned as-is, and a body that
fails to decode yields a synthesized `webhook-<unique>` id rather than
an error; a first successful attempt is what `Send` returns. -/
theorem webhook_success_criterion (status nano : Nat) (body : Option WebhookResponse)
    (r : WebhookResponse) :
    ((doRequest nano (.response status body)).isOk = true ↔
      (status = 200 ∨ status = 202)) ∧
    ((status = 200 ∨ status = 202) →
      doRequest nano (.response status (some r)) = .ok r) ∧
    ((status = 200 ∨ status = 202) →
      doRequest nano (.response status none) =
        .ok { message := "Accepted", messageID := ("webhook-") ++ toString nano }) ∧
    (∀ (maxR : Nat) (rest : List (HTTPOutcome × Nat)),
      doRequest nano (.response status body) = .ok r →
      webhookSend maxR ((.response status body, nano) :: rest) = .ok r) := by
  refine ⟨?_, ?_, ?_, ?_⟩
  · by_cases hs : status = 200 ∨ status = 202
    · unfold doRequest
      dsimp only
      rw [if_neg (by tauto)]
      cases body <;> simp [Except.isOk, Except.toBool, hs]
    · unfold doRequest
      dsimp only
      rw [if_pos (by tauto)]
      simp [Except.isOk, Except.toBool, hs]
  · intro hs
    unfold doRequest
    dsimp only
    rw [if_neg (by tauto)]
  · intro hs
    unfold doRequest
    dsimp only
    rw [if_neg (by tauto)]
  · intro maxR rest h
    simp [webhookSend, List.take_succ_cons, sendLoop, h]

/-- C5 witness: a 202 with a non-JSON body succeeds with the synthesized
id, and that success is what `Send` returns on its first attempt. -/
theorem webhook_success_criterion_witness :
    doRequest 7 (.response 202 none) =
      .ok { message := "Accepted", messageID := ("webhook-") ++ toString 7 } ∧
    webhookSend 3 [(.response 202 none, 7)] =
      .ok { message := "Accepted", messageID := ("webhook-") ++ toString 7 } := by
  have h := webhook_success_criterion 202 7 none
    { message := "Accepted", messageID := ("webhook-") ++ toString 7 }
  have h1 := h.2.2.1 (Or.inr rfl)
  exact ⟨h1, h.2.2.2 3 [] h1⟩

/-- C6 counterexample: with the default 2-minute polling interval the
batch-context timeout computed by `processBatch` is 60 seconds, not
`min(30s, interval/2) = 30s`. -/
theorem batchTimeout_not_min :
    batchTimeout (2 * minute) ≠ min (30 * second) (2 * minute / 2) := by
  decide

/-- C6 amended: the batch-context timeout is `max(30s, interval/2)` —
30 seconds unless half the interval is larger; with the default
2-minute interval the batch is bounded by 60 seconds. -/
theorem batchTimeout_max (interval : Nat) :
    batchTimeout interval = max (30 * second) (interval / 2) ∧
    batchTimeout (2 * minute) = 60 * second := by
  constructor
  · by_cases h : interval > minute
    · rw [batchTimeout, if_pos h,
        max_eq_right (by simp only [minute, second] at h ⊢; omega)]
    · rw [batchTimeout, if_neg h,
        max_eq_left (by simp only [minute, second] at h ⊢; omega)]
  · decide

/-- C7: both paginated reads normalize `page < 1` to 1 and `pageSize`
outside `[1,100]` to the default 20 (so any out-of-range `pageSize`,
in particular one above 100, lands back in the permitted range), read at
offset `(page-1)*pageSize` over the normalized values, and share the
same pagination semantics. -/
theorem pagination_semantics (page pageSize : Int) :
    (getDeadLetterMessagesParams page pageSize = getSentMessagesParams page pageSize) ∧
    (getSentMessagesParams page pageSize =
      (((if page < 1 then 1 else page) - 1) *
        (if pageSize < 1 ∨ pageSize > 100 then 20 else pageSize),
       (if pageSize < 1 ∨ pageSize > 100 then 20 else pageSize))) ∧
    (1 ≤ page → 1 ≤ pageSize → pageSize ≤ 100 →
      getSentMessagesParams page pageSize = ((page - 1) * pageSize, pageSize)) ∧
    (1 ≤ (getSentMessagesParams page pageSize).2 ∧
      (getSentMessagesParams page pageSize).2 ≤ 100) ∧
    (pageSize > 100 → (getSentMessagesParams page pageSize).2 = 20) ∧
    (pageSize < 1 → (getSentMessagesParams page pageSize).2 = 20) ∧
    (page < 1 → (getSentMessagesParams page pageSize).1 = 0) ∧
    (0 ≤ (getSentMessagesParams page pageSize).1) ∧
    (∀ st : Store, serviceGetSentMessages st page pageSize =
      repoGetSentMessages st (getSentMessagesParams page pageSize).1.toNat
        (getSentMessagesParams page pageSize).2.toNat) ∧
    (∀ st : Store, serviceGetDeadLetterMessages st page pageSize =
      repoGetDeadLetterMessages st (getSentMessagesParams page pageSize).1.toNat
        (getSentMessagesParams page pageSize).2.toNat) := by
  have hp : (1 : Int) ≤ (if page < 1 then 1 else page) := by split_ifs <;> omega
  have hs : (1 : Int) ≤ (if pageSize < 1 ∨ pageSize > 100 then 20 else pageSize) := by
    split_ifs <;> omega
  refine ⟨rfl, rfl, ?_, ?_, ?_, ?_, ?_, ?_, fun st => rfl, fun st => rfl⟩
  · intro h1 h2 h3
    simp only [getSentMessagesParams]
    rw [if_neg (by omega), if_neg (by omega)]
  · simp only [getSentMessagesParams]
    constructor
    · exact hs
    · split_ifs <;> omega
  · intro h
    simp only [getSentMessagesParams]
    rw [if_pos (by omega)]
  · intro h
    simp only [getSentMessagesParams]
    rw [if_pos (by omega)]
  · intro h
    simp only [getSentMessagesParams]
    rw [if_pos h]
    ring
  · simp only [getSentMessagesParams]
    exact mul_nonneg (by omega) (by omega)

/-- C7 witness: `page = 0` and `pageSize = 150` normalize to the
defaults 1 and 20 with offset 0. -/
theorem pagination_semantics_witness :
    (getSentMessagesParams 0 150).2 = 20 ∧ (getSentMessagesParams 0 150).1 = 0 := by
  have h := pagination_semantics 0 150
  exact ⟨h.2.2.2.2.1 (by norm_num), h.2.2.2.2.2.2.1 (by norm_num)⟩

/-- C8: `Start` fails with the already-running error exactly when the
scheduler is running (leaving the state unchanged), `Stop` fails exactly
when it is not running, and `GetStatus` reports `(running, started_at)`,
which reads `(true, some now)` after a successful start and
`(false, none)` after a successful stop. -/
theorem scheduler_start_stop_status (s : SchedState) (now : Nat) :
    ((schedulerStart s now).1 = some .alreadyRunning ↔ s.running = true) ∧
    (s.running = true → (schedulerStart s now).2 = s) ∧
    (s.running = false →
      schedulerStart s now = (none, { running := true, startedAt := some now })) ∧
    ((schedulerStop s).1 = some .notRunning ↔ s.running = false) ∧
    (s.running = false → (schedulerStop s).2 = s) ∧
    (s.running = true →
      schedulerStop s = (none, { running := false, startedAt := none })) ∧
    (getStatus s = (s.running, s.startedAt)) ∧
    (s.running = false → getStatus (schedulerStart s now).2 = (true, some now)) ∧
    (s.running = true → getStatus (schedulerStop s).2 = (false, none)) := by
  cases hs : s.running <;>
    simp [schedulerStart, schedulerStop, getStatus, hs]

/-- C8 witness: starting a stopped scheduler at time 42 succeeds and
stopping a running one succeeds, with the reported status flipping. -/
theorem scheduler_start_stop_status_witness :
    schedulerStart { running := false, startedAt := none } 42 =
      (none, { running := true, startedAt := some 42 }) ∧
    schedulerStop { running := true, startedAt := some 42 } =
      (none, { running := false, startedAt := none }) := by
  exact ⟨(scheduler_start_stop_status { running := false, startedAt := none } 42).2.2.1 rfl,
    (scheduler_start_stop_status { running := true, startedAt := some 42 } 42).2.2.2.2.2.1 rfl⟩

/-- C9: the primary outcome of batch processing (the resulting store)
and of scheduler start/stop (error and state) is identical in any two
runs that differ only in whether audit-store writes succeed; on failure
the emitter degrades to console logging. -/
theorem audit_independence (a1 a2 : Bool) (st : Store) (batchSize maxLength : Nat)
    (webhookFor : Nat → Except String WebhookResponse) (now : Nat) (s : SchedState)
    (entry : AuditLog) :
    ((processBatch a1 st batchSize maxLength webhookFor now).store =
      (processBatch a2 st batchSize maxLength webhookFor now).store) ∧
    ((schedulerStartRun a1 s now).1 = (schedulerStartRun a2 s now).1) ∧
    ((schedulerStopRun a1 s).1 = (schedulerStopRun a2 s).1) ∧
    ((logWithFallback false entry).1 = .consoleLogged) ∧
    ((logWithFallback true entry).1 = .stored) := by
  refine ⟨rfl, ?_, ?_, rfl, rfl⟩
  · cases hs : s.running <;> simp [schedulerStartRun, schedulerStart, hs]
  · cases hs : s.running <;> simp [schedulerStopRun, schedulerStop, hs]
